import Mathlib

/-!
Verification development for the spreadsheet reconciliation scripts.

The definitions below are a shallow embedding of the reconciliation logic
of src/text.py (module text) and of the lock-handling control flow of
src/hashing.py.  Monetary amounts are modelled as Int (the scripts load
them with pd.to_numeric(...).fillna(0)); strings are modelled as Lean
strings, with Python string methods translated on the underlying
character lists.  Pandas dictionaries are modelled as functions built
from association lists.
-/

/-- The whitespace characters stripped by the Python str.strip method
(restricted to the ASCII whitespace characters plus the no-break space
U+00A0, which is the full set relevant to the data handled here). -/
def pyWhitespace (c : Char) : Bool :=
  c == ' ' || c == '\t' || c == '\n' || c == '\r' ||
  c == (Char.ofNat 11) || c == (Char.ofNat 12) || c == (Char.ofNat 160)

/-- Python str.strip(): drop leading and trailing whitespace. -/
def pyStrip (s : List Char) : List Char :=
  ((s.dropWhile pyWhitespace).reverse.dropWhile pyWhitespace).reverse

/-- text.py line 55-56: if s.endswith(".."): s = s[:-2].  Note that the
source tests for a trailing ".." (two dots), not for a trailing ".0". -/
def dropDotDot (s : List Char) : List Char :=
  if s.reverse.take 2 = ['.', '.'] then (s.reverse.drop 2).reverse else s

/-- text.py line 57: s.replace(u00A0, " ") — no-break spaces become
ordinary spaces. -/
def replaceNbsp (s : List Char) : List Char :=
  s.map (fun c => if c == Char.ofNat 160 then ' ' else c)

/-- text.py line 58: re.sub(r"[,\x2d]", "", s) — commas and hyphens are
removed.  Ordinary spaces are NOT removed by this pattern. -/
def stripPunct (s : List Char) : List Char :=
  s.filter (fun c => !(c == ',' || c == '-'))

/-- The ASCII lowercase/uppercase letter pairs, used to model the Python
str.upper and str.lower methods on the ASCII identifiers handled here. -/
def upperTable : List (Char × Char) :=
  [('a','A'), ('b','B'), ('c','C'), ('d','D'), ('e','E'), ('f','F'), ('g','G'),
   ('h','H'), ('i','I'), ('j','J'), ('k','K'), ('l','L'), ('m','M'), ('n','N'),
   ('o','O'), ('p','P'), ('q','Q'), ('r','R'), ('s','S'), ('t','T'), ('u','U'),
   ('v','V'), ('w','W'), ('x','X'), ('y','Y'), ('z','Z')]

/-- Python str.upper on one character (ASCII fragment). -/
def pyUpperChar (c : Char) : Char :=
  ((upperTable.find? (fun p => p.1 == c)).map (fun p => p.2)).getD c

/-- Python str.lower on one character (ASCII fragment). -/
def pyLowerChar (c : Char) : Char :=
  ((upperTable.find? (fun p => p.2 == c)).map (fun p => p.1)).getD c

/-- text.py lines 50-59, norm_key on the character list of a string:
strip, drop a trailing "..", turn no-break spaces into spaces, remove
commas and hyphens, uppercase.  (The pd.isna branch, returning "", is
the None case of callers and is modelled at the call sites that can
receive missing values.) -/
def normKeyL (s : List Char) : List Char :=
  (stripPunct (replaceNbsp (dropDotDot (pyStrip s)))).map pyUpperChar

/-- text.py lines 50-59: norm_key as a string transformation. -/
def normKey (s : String) : String :=
  String.mk (normKeyL s.data)

/-- Python str.upper on a whole string (ASCII fragment). -/
def pyUpper (s : String) : String :=
  String.mk (s.data.map pyUpperChar)

/-- Python str.lower on a whole string (ASCII fragment). -/
def pyLower (s : String) : String :=
  String.mk (s.data.map pyLowerChar)

/-- Substring test: does the haystack contain the needle as a contiguous
run?  Models the Python "in" operator / pandas str.contains on plain
(non-regex-special) needles. -/
def hasSubstr : List Char → List Char → Bool
  | [], needle => needle.isEmpty
  | h :: t, needle => needle.isPrefixOf (h :: t) || hasSubstr t needle

/-- Model of pandas Series.to_dict() on a series whose (possibly
duplicated) index entries are the first components: Python dict
construction assigns sequentially, so for a duplicated key the LAST
occurrence is the one retained.  The resulting dict is modelled as a
function into Option. -/
def pandasToDict (pairs : List ((String × String) × Int)) : String × String → Option Int :=
  fun k => ((pairs.filter (fun p => decide (p.1 = k))).getLast?).map (fun p => p.2)

/-- text.py lines 78 and 83-89: the multi-key commitment dict of
create_commitment_sheet.  The input list holds (Account Number, Investor
Commitment) pairs of the CDR table.  Line 78 applies norm_key to the
Account Number column; lines 84-85 then build BOTH helper key columns
(_bin_norm and _acct_norm) by applying norm_key again to that same
column; line 87-89 converts the doubly-indexed series to a dict. -/
def cdrMultiDict (cdr : List (String × Int)) : String × String → Option Int :=
  pandasToDict
    ((cdr.map (fun p => (normKey p.1, p.2))).map
      (fun p => ((normKey p.1, normKey p.1), p.2)))

/-- Model of groupby(key).sum().to_dict(): the dict maps a key to the SUM
of the values carrying that key, and has no entry for absent keys. -/
def pandasGroupSumDict (pairs : List (String × Int)) : String → Option Int :=
  fun k =>
    if (pairs.filter (fun p => decide (p.1 = k))).isEmpty then none
    else some (((pairs.filter (fun p => decide (p.1 = k))).map (fun p => p.2)).sum)

/-- text.py lines 307-314: the single-key map id_to_amt of
create_entry_sheet_with_subtotals.  The input list holds (Account
Number, Investor Commitment) pairs of the CDR summary table; line 307
uppercases the Account Number, line 308 applies norm_key, lines 310-314
group by that key and SUM the commitments into a dict. -/
def entryFallbackDict (cdr : List (String × Int)) : String → Option Int :=
  pandasGroupSumDict (cdr.map (fun p => (normKey (pyUpper p.1), p.2)))

/-- text.py lines 101-103: lookup_gs resolves a detail row by looking up
the exact pair (_bin_norm, _inv_acct_norm) in the multi-key dict, with
the plain number 0 as the default for an absent key.  There is no
second lookup tier. -/
def lookupGs (multi : String × String → Option Int) (binId invAcctId : String) : Int :=
  (multi (normKey binId, normKey invAcctId)).getD 0

/-- One row of the Data_format detail table of create_commitment_sheet,
restricted to the fields the reconciliation logic reads or writes. -/
structure WRow where
  legalEntity : String
  binId : String
  invAcctId : String
  commitAmount : Int
  gsCommit : Int
  gsCheck : Int
deriving DecidableEq, Repr

/-- text.py line 115: a row is a subtotal marker iff its Legal Entity
contains "Subtotal" case-insensitively (str.contains with case=False). -/
def isSubtotalRow (r : WRow) : Bool :=
  hasSubstr ((pyLower r.legalEntity).data) ("subtotal".data)

/-- text.py line 105: df["GS Commitment"] = df.apply(lookup_gs, axis=1),
applied to every row. -/
def applyLookup (multi : String × String → Option Int) (rows : List WRow) : List WRow :=
  rows.map (fun r => { r with gsCommit := lookupGs multi r.binId r.invAcctId })

/-- text.py lines 109-112 on one row: Commitment Amount is replaced by GS
Commitment exactly when the loaded Commitment Amount is 0 and the GS
Commitment is nonzero. -/
def gsReplaceRow (r : WRow) : WRow :=
  if r.commitAmount = 0 ∧ r.gsCommit ≠ 0 then { r with commitAmount := r.gsCommit } else r

/-- text.py lines 109-112 on the whole table. -/
def gsReplace (rows : List WRow) : List WRow :=
  rows.map gsReplaceRow

/-- Sum of the Commitment Amount column. -/
def sumAmt (s : List WRow) : Int :=
  (s.map (fun r => r.commitAmount)).sum

/-- Sum of the GS Commitment column. -/
def sumGs (s : List WRow) : Int :=
  (s.map (fun r => r.gsCommit)).sum

/-- text.py lines 121-126: the values written into one subtotal row from
its section (the rows strictly between the previous marker and this
marker). -/
def updateMarker (m : WRow) (sec : List WRow) : WRow :=
  { m with
    commitAmount := sumAmt sec
    gsCommit := sumGs sec
    gsCheck := sumAmt sec - sumGs sec }

/-- Worker of the subtotal loop of text.py lines 114-128.  The second
argument accumulates the current section in reverse.  Hitting a marker
row emits the section followed by the updated marker and starts a fresh
section; rows after the last marker are emitted unchanged (the loop of
the source never visits them, and they remain in the frame). -/
def stGo : List WRow → List WRow → List WRow
  | [], cur => cur.reverse
  | r :: rest, cur =>
    if isSubtotalRow r then
      cur.reverse ++ updateMarker r cur.reverse :: stGo rest []
    else
      stGo rest (r :: cur)

/-- text.py lines 114-128: the subtotal loop over the whole table. -/
def subtotalLoop (rows : List WRow) : List WRow :=
  stGo rows []

/-- text.py line 130: df["GS Check"] = Commitment Amount - GS Commitment,
recomputed for every row after the loop. -/
def recomputeCheck (r : WRow) : WRow :=
  { r with gsCheck := r.commitAmount - r.gsCommit }

/-- text.py lines 114-130: subtotal loop followed by the global GS Check
recomputation. -/
def aggregatePass (rows : List WRow) : List WRow :=
  (subtotalLoop rows).map recomputeCheck

/-- The reconciliation core of create_commitment_sheet (text.py lines
100-130): GS lookup for every row, the conditional Commitment Amount
replacement, then the subtotal pass. -/
def commitSheetCompute (multi : String × String → Option Int) (rows : List WRow) : List WRow :=
  aggregatePass (gsReplace (applyLookup multi rows))

/-- Worker of the group segmentation implicit in text.py lines 114-128:
the sections df.iloc[start:idx] together with their marker rows, in
order, followed by the rows after the last marker as a final
unterminated group (those rows stay in the frame untouched). -/
def segGo : List WRow → List WRow → List (List WRow)
  | [], cur => if cur.isEmpty then [] else [cur.reverse]
  | r :: rest, cur =>
    if isSubtotalRow r then
      (cur.reverse ++ [r]) :: segGo rest []
    else
      segGo rest (r :: cur)

/-- The group segmentation of the detail table induced by the subtotal
markers (text.py lines 114-128). -/
def segmentGroups (rows : List WRow) : List (List WRow) :=
  segGo rows []

/-- text.py lines 316-320: the Commitment Amount written into an
allocation row of the Entry sheet.  The Bin ID may be missing (the map
at line 316 yields NaN for unmatched ids, modelled as none); a missing
or blank Bin ID yields the empty value (modelled none), otherwise the
id_to_amt dict is consulted with "" (modelled none) as default. -/
def entryCommitAmount (idToAmt : String → Option Int) (binId : Option String) : Option Int :=
  match binId with
  | none => none
  | some x => if pyStrip x.data = [] then none else idToAmt (normKey x)

/-- Modelled from the spec: one Detail Row of the reconciliation engine
(spec section 3).  No feeder-handling code exists under src/ (none of
the source files mentions a feeder marker), so the feeder override of
spec section 4.4 is modelled from the words of the spec. -/
structure DRow where
  primaryKey : String
  amount : Int
  referenceAmount : Option Int
  check : Option Int
deriving DecidableEq, Repr

/-- Modelled from the spec: a row is a feeder row when its primary key,
case-folded, contains the marker substring "feeder" (spec section 3,
is_feeder). -/
def isFeeder (r : DRow) : Bool :=
  hasSubstr ((pyLower r.primaryKey).data) ("feeder".data)

/-- Modelled from the spec: the initial subtotal of reference_amount over
the members of a group, treating empty as 0, captured BEFORE any feeder
override (spec section 4.4 step 3). -/
def initRefSum (members : List DRow) : Int :=
  (members.map (fun r => r.referenceAmount.getD 0)).sum

/-- Modelled from the spec: spec section 4.4 step 4 — every feeder member
gets reference_amount := initial_subtotal_reference and check :=
amount - reference_amount; non-feeder members are unchanged. -/
def feederOverride (members : List DRow) : List DRow :=
  members.map (fun r =>
    if isFeeder r then
      { r with
        referenceAmount := some (initRefSum members)
        check := some (r.amount - initRefSum members) }
    else r)

/-- The user-visible outcomes of update_shared_excel_with_kpi
(src/hashing.py): the status dicts returned at lines 28, 44, 74, 77-83
and 86. -/
inductive UStatus where
  | accessDenied
  | busy
  | errorCaught
  | aborted
  | success
deriving DecidableEq, Repr

/-- src/hashing.py lines 23-91: the control flow of
update_shared_excel_with_kpi over the lock file.  The five Booleans
select the branch taken: the shared drive check (line 27), the lock
check (line 43), whether the initial hash/size computation at lines
49-50 raises (it runs AFTER the lock is created at line 45 but BEFORE
the try block, so an exception there propagates with the lock still
present), whether the try body raises (caught at line 85, which
returns an error status), and whether the hash comparison at line 73
aborts.  The result is the returned status (Except.error models an
exception propagating out of the call) paired with whether the lock
file exists afterwards; the finally block at lines 88-91 removes the
lock on every path leaving the try statement. -/
def updateSharedExcelWithKpi (driveExists lockAtEntry preHashRaises bodyRaises hashMismatch : Bool) :
    Except Unit UStatus × Bool :=
  if driveExists = false then (Except.ok UStatus.accessDenied, lockAtEntry)
  else if lockAtEntry = true then (Except.ok UStatus.busy, true)
  else if preHashRaises = true then (Except.error (), true)
  else if bodyRaises = true then (Except.ok UStatus.errorCaught, false)
  else if hashMismatch = true then (Except.ok UStatus.aborted, false)
  else (Except.ok UStatus.success, false)

/-! ### Character-level facts about the normalizer -/

theorem upperTable_no_chain : ∀ p ∈ upperTable, ∀ q ∈ upperTable, ¬ (q.1 == p.2) := by
  decide

theorem pyUpperChar_idem (c : Char) : pyUpperChar (pyUpperChar c) = pyUpperChar c := by
  unfold pyUpperChar
  cases h : upperTable.find? (fun p => p.1 == c) with
  | none => simp [h]
  | some p =>
    have hp := List.mem_of_find?_eq_some h
    have hnone : upperTable.find? (fun q => q.1 == p.2) = none := by
      apply List.find?_eq_none.mpr
      intro q hq
      simpa using upperTable_no_chain p hp q hq
    simp [h, hnone]

theorem pyUpperChar_ne_of (c x : Char) (hx : ∀ p ∈ upperTable, p.2 ≠ x) (hc : c ≠ x) :
    pyUpperChar c ≠ x := by
  unfold pyUpperChar
  cases h : upperTable.find? (fun p => p.1 == c) with
  | none => simpa using hc
  | some p => simpa using hx p (List.mem_of_find?_eq_some h)

theorem mem_replaceNbsp_ne (s : List Char) (c : Char) (h : c ∈ replaceNbsp s) :
    c ≠ Char.ofNat 160 := by
  unfold replaceNbsp at h
  obtain ⟨d, _hd, hdc⟩ := List.mem_map.mp h
  split at hdc
  · exact hdc ▸ (by decide)
  · next hfalse =>
    intro hEq
    rw [hdc, hEq] at hfalse
    simp at hfalse

theorem mem_stripPunct_ne (s : List Char) (c : Char) (h : c ∈ stripPunct s) :
    c ≠ ',' ∧ c ≠ '-' := by
  unfold stripPunct at h
  have hp := (List.mem_filter.mp h).2
  constructor <;> intro hEq <;> rw [hEq] at hp <;> simp at hp

theorem map_id_of_fixed (l : List Char) (f : Char → Char) (h : ∀ a ∈ l, f a = a) :
    l.map f = l := by
  induction l with
  | nil => rfl
  | cons a t ih => simp only [List.map_cons, h a (by simp), ih
      (fun b hb => h b (by simp [hb])), List.cons.injEq, and_self]

theorem replaceNbsp_eq_self (s : List Char) (h : ∀ c ∈ s, c ≠ Char.ofNat 160) :
    replaceNbsp s = s := by
  unfold replaceNbsp
  apply map_id_of_fixed
  intro a ha
  simp [h a ha]

theorem stripPunct_eq_self (s : List Char) (h : ∀ c ∈ s, c ≠ ',' ∧ c ≠ '-') :
    stripPunct s = s := by
  unfold stripPunct
  apply List.filter_eq_self.mpr
  intro a ha
  simp [(h a ha).1, (h a ha).2]

theorem normKeyL_no_nbsp (s : List Char) (c : Char) (h : c ∈ normKeyL s) :
    c ≠ Char.ofNat 160 := by
  unfold normKeyL at h
  obtain ⟨d, hd, rfl⟩ := List.mem_map.mp h
  unfold stripPunct at hd
  exact pyUpperChar_ne_of d _ (by decide) (mem_replaceNbsp_ne _ d (List.mem_of_mem_filter hd))

theorem normKeyL_no_punct (s : List Char) (c : Char) (h : c ∈ normKeyL s) :
    c ≠ ',' ∧ c ≠ '-' := by
  unfold normKeyL at h
  obtain ⟨d, hd, rfl⟩ := List.mem_map.mp h
  have hd2 := mem_stripPunct_ne _ d hd
  exact ⟨pyUpperChar_ne_of d _ (by decide) hd2.1, pyUpperChar_ne_of d _ (by decide) hd2.2⟩

theorem map_pyUpperChar_normKeyL (s : List Char) :
    (normKeyL s).map pyUpperChar = normKeyL s := by
  unfold normKeyL
  rw [List.map_map]
  apply List.map_congr_left
  intro a _
  simp [Function.comp, pyUpperChar_idem]

/-! ### Facts about group segmentation and the subtotal loop -/

theorem stGo_nil (cur : List WRow) : stGo [] cur = cur.reverse := rfl

theorem stGo_cons (r : WRow) (rest cur : List WRow) :
    stGo (r :: rest) cur =
      if isSubtotalRow r then
        cur.reverse ++ updateMarker r cur.reverse :: stGo rest []
      else
        stGo rest (r :: cur) := rfl

theorem segGo_flatten (pending : List WRow) :
    ∀ cur : List WRow, (segGo pending cur).flatten = cur.reverse ++ pending := by
  induction pending with
  | nil =>
    intro cur
    unfold segGo
    cases h : cur.isEmpty with
    | true => simp [List.isEmpty_iff.mp h]
    | false => simp
  | cons r rest ih =>
    intro cur
    unfold segGo
    by_cases hr : isSubtotalRow r
    · simp [hr, ih [], List.append_assoc]
    · simp [hr, ih (r :: cur), List.append_assoc]

theorem stGo_append_nonmarkers (members : List WRow)
    (h : ∀ r ∈ members, isSubtotalRow r = false) :
    ∀ (l cur : List WRow), stGo (members ++ l) cur = stGo l (members.reverse ++ cur) := by
  induction members with
  | nil => intro l cur; rfl
  | cons m ms ih =>
    intro l cur
    have hm : isSubtotalRow m = false := h m (by simp)
    have hms : ∀ r ∈ ms, isSubtotalRow r = false := fun r hr => h r (by simp [hr])
    rw [List.cons_append, stGo_cons, if_neg (by simp [hm]), ih hms l (m :: cur)]
    simp [List.append_assoc]

theorem stGo_no_marker (l : List WRow) (h : ∀ r ∈ l, isSubtotalRow r = false) :
    ∀ cur : List WRow, stGo l cur = cur.reverse ++ l := by
  induction l with
  | nil => intro cur; simp [stGo_nil]
  | cons r rest ih =>
    intro cur
    have hr : isSubtotalRow r = false := h r (by simp)
    rw [stGo_cons, if_neg (by simp [hr]), ih (fun q hq => h q (by simp [hq])) (r :: cur)]
    simp

theorem subtotalLoop_group (members : List WRow) (m : WRow) (rest : List WRow)
    (h1 : ∀ r ∈ members, isSubtotalRow r = false) (h2 : isSubtotalRow m = true) :
    subtotalLoop (members ++ m :: rest) =
      members ++ updateMarker m members :: subtotalLoop rest := by
  unfold subtotalLoop
  rw [stGo_append_nonmarkers members h1 (m :: rest) [], stGo_cons, if_pos (by simp [h2])]
  simp

theorem stGo_getElem_notMarker (pending : List WRow) :
    ∀ (cur : List WRow) (i : Nat) (r : WRow),
      (cur.reverse ++ pending)[i]? = some r → isSubtotalRow r = false →
      (stGo pending cur)[i]? = some r := by
  induction pending with
  | nil =>
    intro cur i r h _hm
    rw [stGo_nil]
    simpa using h
  | cons a rest ih =>
    intro cur i r h hm
    by_cases ha : isSubtotalRow a
    · rw [stGo_cons, if_pos (by simp [ha])]
      rcases Nat.lt_trichotomy i cur.reverse.length with hlt | heq | hgt
      · rw [List.getElem?_append, if_pos hlt]
        rw [List.getElem?_append, if_pos hlt] at h
        exact h
      · exfalso
        rw [List.getElem?_append, if_neg (by omega), heq, Nat.sub_self] at h
        simp at h
        rw [← h] at hm
        rw [hm] at ha
        exact Bool.false_ne_true ha
      · rw [List.getElem?_append, if_neg (by omega)] at h ⊢
        have hpos : 0 < i - cur.reverse.length := by omega
        obtain ⟨j, hj⟩ : ∃ j, i - cur.reverse.length = j + 1 :=
          ⟨i - cur.reverse.length - 1, by omega⟩
        rw [hj] at h ⊢
        simp only [List.getElem?_cons_succ] at h ⊢
        have := ih [] j r (by simpa using h) hm
        simpa using this
    · rw [stGo_cons, if_neg (by simp [ha])]
      apply ih (a :: cur) i r _ hm
      rw [List.reverse_cons, List.append_assoc]
      simpa using h

theorem subtotalLoop_getElem_notMarker (rows : List WRow) (i : Nat) (r : WRow)
    (h : rows[i]? = some r) (hm : isSubtotalRow r = false) :
    (subtotalLoop rows)[i]? = some r := by
  unfold subtotalLoop
  exact stGo_getElem_notMarker rows [] i r (by simpa using h) hm

theorem gsReplaceRow_legalEntity (r : WRow) : (gsReplaceRow r).legalEntity = r.legalEntity := by
  unfold gsReplaceRow
  split <;> rfl

theorem gsReplaceRow_gsCommit (r : WRow) : (gsReplaceRow r).gsCommit = r.gsCommit := by
  unfold gsReplaceRow
  split <;> rfl

/-! ### Claim theorems -/

/-- C1 (failing-input evaluation): on a reference table holding two rows
with the same key K carrying amounts 10 and 20 in that order, the
multi-key dict built at text.py lines 83-89 resolves K to the LAST value
20 (dict conversion keeps the last assignment for a duplicated key), and
the single-key map built at text.py lines 310-314 resolves K to the SUM
30 — never to the first value 10 required by the claim and the spec. -/
theorem C1_duplicate_keys_code_behavior :
    cdrMultiDict [("K", 10), ("K", 20)] ("K", "K") = some 20 ∧
    entryFallbackDict [("K", 10), ("K", 20)] "K" = some 30 := by
  decide

/-- C2: in every group, each feeder member (primary key containing
"feeder" case-folded) has its reference amount overridden to the subtotal
of reference amounts over the members computed before any feeder override
(empty counted as 0), and its check recomputed as amount minus that
subtotal.  Modelled from the spec, section 4.4; no feeder-handling code
exists under src/. -/
theorem C2_feeder_override (members : List DRow) (i : Nat) (r : DRow)
    (h : members[i]? = some r) (hf : isFeeder r = true) :
    (feederOverride members)[i]? =
      some { r with
             referenceAmount := some (initRefSum members)
             check := some (r.amount - initRefSum members) } := by
  unfold feederOverride
  rw [List.getElem?_map, h]
  simp [hf]

/-- C2 witness: for the group [A(amount 10, ref 8), FEEDER(amount 0, ref
unset)], the feeder ends with reference amount 8 — the subtotal computed
from A alone, with no self-inclusion — and check -8. -/
theorem C2_feeder_override_witness :
    (feederOverride [⟨"A", 10, some 8, none⟩, ⟨"FEEDER-B1", 0, none, none⟩])[1]? =
      some ⟨"FEEDER-B1", 0, some 8, some (-8)⟩ :=
  (C2_feeder_override [⟨"A", 10, some 8, none⟩, ⟨"FEEDER-B1", 0, none, none⟩] 1
      ⟨"FEEDER-B1", 0, none, none⟩ rfl (by decide)).trans (by decide)

/-- C3 counterexample: the claim requires the resolver to fall back to
the single-key map when the exact pair is absent; but with an empty
multi-key dict, and a single-key map that carries the primary key B1 with
amount 7, lookup_gs still yields 0 and never 7 — lookup_gs consults no
fallback map at all (text.py lines 100-106). -/
theorem C3_no_fallback_counterexample :
    entryFallbackDict [("B1", 7)] (normKey "B1") = some 7 ∧
    lookupGs (cdrMultiDict []) "B1" "A1" = 0 ∧ (0 : Int) ≠ 7 := by
  decide

/-- C3 amended: resolution is single-tier and runs for every row before
subtotal recomputation: the GS Commitment of every non-subtotal detail
row of the finished commitment computation equals the multi-key dict
entry at the exact pair (normalized primary key, normalized secondary
key), defaulting to the plain number 0 when that pair is absent; no
single-key fallback map is consulted. -/
theorem C3_single_tier_lookup (multi : String × String → Option Int)
    (rows : List WRow) (i : Nat) (r : WRow)
    (h : rows[i]? = some r) (hm : isSubtotalRow r = false) :
    ((commitSheetCompute multi rows)[i]?).map WRow.gsCommit =
      some ((multi (normKey r.binId, normKey r.invAcctId)).getD 0) := by
  have hAL : (applyLookup multi rows)[i]? =
      some { r with gsCommit := lookupGs multi r.binId r.invAcctId } := by
    unfold applyLookup
    rw [List.getElem?_map, h]
    rfl
  have hGR : (gsReplace (applyLookup multi rows))[i]? =
      some (gsReplaceRow { r with gsCommit := lookupGs multi r.binId r.invAcctId }) := by
    unfold gsReplace
    rw [List.getElem?_map, hAL]
    rfl
  have hm2 : isSubtotalRow
      (gsReplaceRow { r with gsCommit := lookupGs multi r.binId r.invAcctId }) = false := by
    unfold isSubtotalRow
    rw [gsReplaceRow_legalEntity]
    exact hm
  have hSL := subtotalLoop_getElem_notMarker _ i _ hGR hm2
  unfold commitSheetCompute aggregatePass
  rw [List.getElem?_map, hSL]
  simp only [Option.map_some']
  rw [show (recomputeCheck (gsReplaceRow
        { r with gsCommit := lookupGs multi r.binId r.invAcctId })).gsCommit =
      (gsReplaceRow { r with gsCommit := lookupGs multi r.binId r.invAcctId }).gsCommit
    from rfl]
  rw [gsReplaceRow_gsCommit]
  rfl

/-- C3 witness: a concrete one-row table whose exact pair is present
resolves to the stored amount 90 in the finished sheet. -/
theorem C3_single_tier_lookup_witness :
    ((commitSheetCompute (cdrMultiDict [("B1", 90)])
        [⟨"EntityX", "B1", "B1", 100, 0, 0⟩])[0]?).map WRow.gsCommit = some 90 :=
  (C3_single_tier_lookup (cdrMultiDict [("B1", 90)])
      [⟨"EntityX", "B1", "B1", 100, 0, 0⟩] 0 ⟨"EntityX", "B1", "B1", 100, 0, 0⟩
      rfl (by decide)).trans (by decide)

/-- C4: group segmentation partitions the detail table: the concatenation
of all emitted groups (each section together with its terminating
subtotal-marker row, the marker test being a case-folded substring test
for "subtotal", plus the rows after the last marker as a final
unterminated group) reconstructs the input table exactly, with no row
duplicated or dropped. -/
theorem C4_segment_partition (rows : List WRow) :
    (segmentGroups rows).flatten = rows := by
  unfold segmentGroups
  simpa using segGo_flatten rows []

/-- C5 counterexample: the claim states that normalize("1023.0") equals
normalize("1,023"); on the code (norm_key, text.py lines 50-59) the
trailing ".0" is NOT dropped — the source drops a trailing ".." instead —
so the two normal forms differ. -/
theorem C5_normalize_counterexample :
    normKey "1023.0" = "1023.0" ∧ normKey "1,023" = "1023" ∧
    normKey "1023.0" ≠ normKey "1,023" := by
  decide

/-- C5 amended: norm_key converts to string, strips leading and trailing
whitespace, drops a trailing ".." (not ".0") when present, replaces
no-break spaces with ordinary spaces, removes comma and hyphen characters
(but not ordinary spaces), and uppercases; hence normalize("1,023") and
normalize(" 1023 ") both give "1023", while normalize("1023.0") stays
"1023.0", internal spaces survive, and a trailing ".." is dropped. -/
theorem C5_normalize_amended :
    normKey " 1023 " = "1023" ∧ normKey "1,023" = "1023" ∧
    normKey "1023.0" = "1023.0" ∧ normKey "ab.." = "AB" ∧
    normKey "a b" = "A B" ∧ normKey "a-b,c" = "ABC" ∧
    normKey (String.mk ['x', Char.ofNat 160, 'y']) = "X Y" := by
  decide

/-- C6: after the aggregation pass (text.py lines 114-130), the subtotal
row of a group carries the sum of Commitment Amount over the non-subtotal
members of the group, the sum of their GS Commitment values, and the
difference of the two sums as its check; the equation exposes the leading
group and recurses on the rest of the table, so it covers every group. -/
theorem C6_subtotal_sums (members : List WRow) (m : WRow) (rest : List WRow)
    (h1 : ∀ r ∈ members, isSubtotalRow r = false) (h2 : isSubtotalRow m = true) :
    aggregatePass (members ++ m :: rest) =
      members.map recomputeCheck ++
        { m with
          commitAmount := sumAmt members
          gsCommit := sumGs members
          gsCheck := sumAmt members - sumGs members } :: aggregatePass rest := by
  unfold aggregatePass
  rw [subtotalLoop_group members m rest h1 h2]
  simp [updateMarker, recomputeCheck]

/-- C6 witness: members with amounts [5, 7, 3] and reference amounts
[4, 6, 2] yield a subtotal row with amount 15, reference 12, check 3. -/
theorem C6_subtotal_sums_witness :
    aggregatePass
        [⟨"A", "", "", 5, 4, 0⟩, ⟨"B", "", "", 7, 6, 0⟩, ⟨"C", "", "", 3, 2, 0⟩,
         ⟨"Subtotal X", "", "", 0, 0, 0⟩] =
      [⟨"A", "", "", 5, 4, 1⟩, ⟨"B", "", "", 7, 6, 1⟩, ⟨"C", "", "", 3, 2, 1⟩,
       ⟨"Subtotal X", "", "", 15, 12, 3⟩] :=
  (C6_subtotal_sums
      [⟨"A", "", "", 5, 4, 0⟩, ⟨"B", "", "", 7, 6, 0⟩, ⟨"C", "", "", 3, 2, 0⟩]
      ⟨"Subtotal X", "", "", 0, 0, 0⟩ [] (by decide) (by decide)).trans (by decide)

/-- C7 counterexample: the claim requires an unmatched row to resolve to
an explicit no-match value distinct from zero; lookup_gs resolves an
unmatched row to the plain number 0, which coincides with the result for
a row matched with stored value 0, so the two cases are
indistinguishable. -/
theorem C7_zero_sentinel_counterexample :
    lookupGs (cdrMultiDict []) "B1" "A1" = 0 ∧
    lookupGs (cdrMultiDict [("B1", 0)]) "B1" "B1" = 0 := by
  decide

/-- C7 amended: lookup_gs (text.py lines 100-106) resolves an unmatched
row to the number 0 (not a distinct sentinel) and processing continues;
the Entry-sheet commitment lookup (text.py lines 318-320) instead yields
the empty value (modelled none) for a missing, blank, or unmatched Bin
ID, which is distinct from a numeric 0. -/
theorem C7_no_match_amended (multi : String × String → Option Int) (b a : String)
    (h : multi (normKey b, normKey a) = none)
    (idToAmt : String → Option Int) (x : String)
    (hx : idToAmt (normKey x) = none) :
    lookupGs multi b a = 0 ∧
    entryCommitAmount idToAmt (some x) = none ∧
    entryCommitAmount idToAmt none = none := by
  refine ⟨?_, ?_, rfl⟩
  · unfold lookupGs
    rw [h]
    rfl
  · show (if pyStrip x.data = [] then none else idToAmt (normKey x)) = none
    split
    · rfl
    · exact hx

/-- C7 witness: with an empty reference table, a concrete row resolves to
0 through lookup_gs and to the empty value through the Entry-sheet
lookup. -/
theorem C7_no_match_amended_witness :
    lookupGs (cdrMultiDict []) "B7" "A7" = 0 ∧
    entryCommitAmount (entryFallbackDict []) (some "B7") = none ∧
    entryCommitAmount (entryFallbackDict []) none = none :=
  C7_no_match_amended (cdrMultiDict []) "B7" "A7" (by decide)
    (entryFallbackDict []) "B7" (by decide)

/-- C8 counterexample: normalization is not idempotent: the input "A..,"
normalizes to "A.." (the comma is removed after the trailing-".." test
already ran), and a second application then drops the newly exposed
trailing "..". -/
theorem C8_idempotence_counterexample :
    normKey (normKey "A..,") ≠ normKey "A..," := by
  decide

/-- C8 amended: norm_key is idempotent on every input whose normal form
is already whitespace-stripped and does not end in ".."; in general a
second application can differ, because comma and hyphen removal runs
after the strip and after the trailing-".." test and can expose either
pattern. -/
theorem C8_idempotence_amended (x : String)
    (h1 : pyStrip (normKey x).data = (normKey x).data)
    (h2 : dropDotDot (normKey x).data = (normKey x).data) :
    normKey (normKey x) = normKey x := by
  have hdata : (normKey x).data = normKeyL x.data := rfl
  show String.mk (normKeyL (normKey x).data) = normKey x
  rw [normKeyL, h1, h2]
  rw [replaceNbsp_eq_self _ (fun c hc => normKeyL_no_nbsp x.data c (hdata ▸ hc))]
  rw [stripPunct_eq_self _ (fun c hc => normKeyL_no_punct x.data c (hdata ▸ hc))]
  rw [hdata, map_pyUpperChar_normKeyL]
  rfl

/-- C8 witness: the input "b1" satisfies both side conditions and is
indeed normalized idempotently. -/
theorem C8_idempotence_amended_witness :
    (pyStrip (normKey "b1").data = (normKey "b1").data ∧
      dropDotDot (normKey "b1").data = (normKey "b1").data) ∧
    normKey (normKey "b1") = normKey "b1" :=
  ⟨⟨by decide, by decide⟩, C8_idempotence_amended "b1" (by decide) (by decide)⟩

/-- C9: the GS-replacement step (text.py lines 108-112) overwrites the
Commitment Amount of a row with its GS Commitment exactly when the loaded
Commitment Amount is 0 and the GS Commitment is nonzero; every row whose
Commitment Amount is nonzero keeps its value unchanged through this
step. -/
theorem C9_gs_replace_frame (rows : List WRow) (i : Nat) (r : WRow)
    (h : rows[i]? = some r) :
    (r.commitAmount ≠ 0 → (gsReplace rows)[i]? = some r) ∧
    (r.commitAmount = 0 → r.gsCommit ≠ 0 →
      (gsReplace rows)[i]? = some { r with commitAmount := r.gsCommit }) := by
  constructor
  · intro hnz
    unfold gsReplace
    rw [List.getElem?_map, h]
    simp [gsReplaceRow, hnz]
  · intro hz hgs
    unfold gsReplace
    rw [List.getElem?_map, h]
    simp [gsReplaceRow, hz, hgs]

/-- C9 witness: a row with nonzero amount 100 is untouched while a row
with amount 0 and GS value 55 receives 55. -/
theorem C9_gs_replace_frame_witness :
    (gsReplace [⟨"E1", "", "", 100, 90, 0⟩, ⟨"E2", "", "", 0, 55, 0⟩])[0]? =
        some ⟨"E1", "", "", 100, 90, 0⟩ ∧
    (gsReplace [⟨"E1", "", "", 100, 90, 0⟩, ⟨"E2", "", "", 0, 55, 0⟩])[1]? =
        some ⟨"E2", "", "", 55, 55, 0⟩ :=
  ⟨(C9_gs_replace_frame [⟨"E1", "", "", 100, 90, 0⟩, ⟨"E2", "", "", 0, 55, 0⟩] 0
      ⟨"E1", "", "", 100, 90, 0⟩ rfl).1 (by decide),
   ((C9_gs_replace_frame [⟨"E1", "", "", 100, 90, 0⟩, ⟨"E2", "", "", 0, 55, 0⟩] 1
      ⟨"E2", "", "", 0, 55, 0⟩ rfl).2 (by decide) (by decide)).trans (by decide)⟩

/-- C10: whenever the shared drive exists and the lock file is absent at
entry (so the lock is acquired), every returning path of
update_shared_excel_with_kpi — the success path, the early hash-mismatch
return, and the path where the try body raises and the handler returns an
error status — leaves the call with the lock file removed (the finally
block of src/hashing.py lines 88-91). -/
theorem C10_lock_released (d l p b m : Bool) (h1 : d = true) (h2 : l = false)
    (st : UStatus) (h3 : (updateSharedExcelWithKpi d l p b m).1 = Except.ok st) :
    (updateSharedExcelWithKpi d l p b m).2 = false := by
  subst h1
  subst h2
  cases p <;> cases b <;> cases m <;> simp_all [updateSharedExcelWithKpi]

/-- C10 witness: the path where the try body raises (and the handler
returns the error status) releases the lock. -/
theorem C10_lock_released_witness :
    (updateSharedExcelWithKpi true false false true false).2 = false :=
  C10_lock_released true false false true false rfl rfl UStatus.errorCaught rfl
